import Mathlib

/-!
Verification of the VirtualDisplayPy repository against its natural-language
specification.

The Python code is shallowly embedded: Python strings are modelled as lists
of characters (`PyStr`), Python dicts keyed by strings as insertion-ordered
association lists, machine integers as `Nat`/`Int`, and Python floats as `ℚ`
(exact arithmetic).  Fallible Python code (raised exceptions) is modelled
with `Option`/`Except`.
-/

/-- Python strings modelled as lists of characters. -/
abbrev PyStr := List Char

/-- `str.lower` on a single character (ASCII case folding). -/
def pyLowerChar (c : Char) : Char :=
  if 'A' ≤ c ∧ c ≤ 'Z' then Char.ofNat (c.toNat + 32) else c

/-- `str.lower`. -/
def pyLower (s : PyStr) : PyStr := s.map pyLowerChar

/-- `str.upper` on a single character (ASCII case folding). -/
def pyUpperChar (c : Char) : Char :=
  if 'a' ≤ c ∧ c ≤ 'z' then Char.ofNat (c.toNat - 32) else c

/-- `str.upper`. -/
def pyUpper (s : PyStr) : PyStr := s.map pyUpperChar

/-- The whitespace characters removed by Python `str.strip()`. -/
def pyIsSpace (c : Char) : Bool :=
  c == ' ' || c == '\t' || c == '\n' || c == '\r' || c == '\x0b' || c == '\x0c'

/-- Python `str.strip()`: drop whitespace from both ends. -/
def pyStrip (s : PyStr) : PyStr :=
  ((s.dropWhile pyIsSpace).reverse.dropWhile pyIsSpace).reverse

/-- Python `str.startswith(p)`. -/
def pyStartsWith : PyStr → PyStr → Bool
  | _, [] => true
  | [], _ :: _ => false
  | c :: s, p :: ps => c == p && pyStartsWith s ps

/-- Helper for `pySplitChar`: accumulates the current field (reversed). -/
def pySplitCharAux (sep : Char) : PyStr → PyStr → List PyStr
  | [], acc => [acc.reverse]
  | c :: rest, acc =>
      if c == sep then acc.reverse :: pySplitCharAux sep rest []
      else pySplitCharAux sep rest (c :: acc)

/-- Python `str.split(sep)` for a one-character separator: `"".split` gives
`[""]`, a trailing separator yields a trailing empty field. -/
def pySplitChar (sep : Char) (s : PyStr) : List PyStr :=
  pySplitCharAux sep s []

/-- Python dict lookup `d.get(k)` on an insertion-ordered association list. -/
def dictGet? {α : Type} : List (String × α) → String → Option α
  | [], _ => none
  | (k1, v1) :: rest, k => if k1 = k then some v1 else dictGet? rest k

/-- Python dict assignment `d[k] = v`: replace in place, else append. -/
def dictSet {α : Type} : List (String × α) → String → α → List (String × α)
  | [], k, v => [(k, v)]
  | (k1, v1) :: rest, k, v =>
      if k1 = k then (k, v) :: rest else (k1, v1) :: dictSet rest k v

/-- Python dict deletion `del d[k]` (dict keys are unique, so removing every
occurrence of the key is the same operation). -/
def dictErase {α : Type} (m : List (String × α)) (k : String) : List (String × α) :=
  m.filter (fun kv => !(kv.1 == k))

/-- Python membership test `k in d`. -/
def dictContains {α : Type} (m : List (String × α)) (k : String) : Bool :=
  (dictGet? m k).isSome

theorem dictGet_set_self {α : Type} (m : List (String × α)) (k : String) (v : α) :
    dictGet? (dictSet m k v) k = some v := by
  induction m with
  | nil => simp [dictSet, dictGet?]
  | cons hd tl ih =>
      obtain ⟨k1, v1⟩ := hd
      by_cases h : k1 = k
      · simp [dictSet, dictGet?, h]
      · simp [dictSet, dictGet?, h, ih]

theorem dictGet_erase_self {α : Type} (m : List (String × α)) (k : String) :
    dictGet? (dictErase m k) k = none := by
  induction m with
  | nil => simp [dictErase, dictGet?]
  | cons hd tl ih =>
      obtain ⟨k1, v1⟩ := hd
      simp only [dictErase, List.filter_cons]
      by_cases h : k1 = k
      · rw [show (!(k1 == k)) = false by simp [h]]
        simpa [dictErase] using ih
      · rw [show (!(k1 == k)) = true by simp [h]]
        simp only [dictGet?, if_neg h]
        simpa [dictErase] using ih

theorem dictErase_of_not_contains {α : Type} (m : List (String × α)) (k : String)
    (h : dictContains m k = false) : dictErase m k = m := by
  induction m with
  | nil => simp [dictErase]
  | cons hd tl ih =>
      obtain ⟨k1, v1⟩ := hd
      by_cases hk : k1 = k
      · simp [dictContains, dictGet?, hk] at h
      · simp only [dictContains, dictGet?, if_neg hk] at h
        have h2 : dictContains tl k = false := by simp [dictContains, h]
        simp only [dictErase, List.filter_cons]
        rw [show (!(k1 == k)) = true by simp [hk]]
        have := ih h2
        simpa [dictErase] using congrArg (List.cons (k1, v1)) this

/-- `models.display_config.ConnectionType`. -/
inductive ConnectionType where
  | serial
  | usb
  | usb_serial
  | network
  | bluetooth
deriving DecidableEq

/-- `models.display_config.FailureType`. -/
inductive FailureType where
  | timeout
  | disconnect
  | corruption
  | buffer_overflow
  | checksum_error
deriving DecidableEq

/-- `models.communication.CommunicationStatus`. -/
inductive CommunicationStatus where
  | success
  | error
  | timeout
  | corrupted
deriving DecidableEq

/-- The fields of `models.display_config.VirtualDisplayConfig` that the
emulation core reads, with the dataclass defaults.  `error_rate` is a
Python float, modelled as `ℚ`. -/
structure VirtualDisplayConfig where
  port_name : String := "COM1"
  connection_type : ConnectionType := ConnectionType.serial
  display_lines : Nat := 2
  line_length : Nat := 20
  artificial_latency : Nat := 0
  error_rate : ℚ := 0
  simulated_failures : List FailureType := []

/-- `SerialEmulator._process_display_message`, the pure content computation:
a blank-after-strip message or one whose lowercasing starts with `clear`
clears the display; otherwise the message is split on newlines, cut to at
most `display_lines` entries, padded with empty lines, and each line is
truncated to `line_length` characters. -/
def process_display_message (message : PyStr) (config : VirtualDisplayConfig) :
    List PyStr :=
  if pyStrip message == [] || pyStartsWith (pyLower message) ("clear".data) then
    List.replicate config.display_lines []
  else
    let lines := pySplitChar '\n' message
    let lines := lines.take config.display_lines
    let lines := lines ++ List.replicate (config.display_lines - lines.length) []
    lines.map (fun line =>
      if line.length > config.line_length then line.take config.line_length else line)

/-- The store update `self.display_content[port_name] = lines` performed by
`SerialEmulator._process_display_message`. -/
def process_display_message_store (display_content : List (String × List PyStr))
    (port_name : String) (message : PyStr) (config : VirtualDisplayConfig) :
    List (String × List PyStr) :=
  dictSet display_content port_name (process_display_message message config)

theorem trunc_length_le (line : PyStr) (n : Nat) :
    (if line.length > n then line.take n else line).length ≤ n := by
  split
  · simp
  · omega

theorem process_display_message_length (message : PyStr) (config : VirtualDisplayConfig) :
    (process_display_message message config).length = config.display_lines := by
  unfold process_display_message
  split
  · simp
  · simp only [List.length_map, List.length_append, List.length_replicate,
      List.length_take]
    omega

theorem process_display_message_line_length (message : PyStr)
    (config : VirtualDisplayConfig) :
    ((process_display_message message config).all
      (fun line => decide (line.length ≤ config.line_length))) = true := by
  unfold process_display_message
  split
  · rw [List.all_eq_true]
    intro x hx
    rw [List.eq_of_mem_replicate hx]
    simp
  · rw [List.all_eq_true]
    intro x hx
    rcases List.mem_map.mp hx with ⟨line, _, rfl⟩
    simpa using trunc_length_le line config.line_length

/-- C1: for every port name, message, and config, after the display-content
processing of a successful `send_message`, the stored display content for
that port has exactly `config.display_lines` entries and every entry has
length at most `config.line_length`. -/
theorem C1_stored_content_invariant (display_content : List (String × List PyStr))
    (port_name : String) (message : PyStr) (config : VirtualDisplayConfig) :
    dictGet? (process_display_message_store display_content port_name message config)
        port_name = some (process_display_message message config) ∧
    (process_display_message message config).length = config.display_lines ∧
    ((process_display_message message config).all
      (fun line => decide (line.length ≤ config.line_length))) = true :=
  ⟨dictGet_set_self display_content port_name _,
   process_display_message_length message config,
   process_display_message_line_length message config⟩

/-- C2: sending an empty string or any string starting with `clear`
(case-insensitively) through display-content processing stores a list of
`config.display_lines` empty strings for the port, regardless of prior
content. -/
theorem C2_clear_semantics (display_content : List (String × List PyStr))
    (port_name : String) (message : PyStr) (config : VirtualDisplayConfig)
    (h : message = [] ∨ pyStartsWith (pyLower message) ("clear".data) = true) :
    dictGet? (process_display_message_store display_content port_name message config)
        port_name = some (List.replicate config.display_lines []) := by
  have hcond :
      (pyStrip message == [] || pyStartsWith (pyLower message) ("clear".data)) = true := by
    rcases h with h | h
    · subst h
      decide
    · rw [h, Bool.or_true]
  unfold process_display_message_store process_display_message
  rw [if_pos hcond]
  exact dictGet_set_self display_content port_name _

/-- Witness for C2 at a concrete input: message `"CLEAR display"`, a prior
stored line, and the default 2×20 configuration. -/
theorem C2_clear_semantics_witness :
    dictGet? (process_display_message_store [("COM1", [['x']])] "COM1"
        ("CLEAR display".data) {}) "COM1" = some (List.replicate 2 []) :=
  C2_clear_semantics [("COM1", [['x']])] "COM1" ("CLEAR display".data) {}
    (Or.inr (by decide))

theorem process_display_message_sample_truncate :
    process_display_message ("Hello World this is long\nSecond".data) {} =
      ["Hello World this is ".data, "Second".data] := by decide

theorem process_display_message_sample_pad :
    process_display_message ("one".data) {} = ["one".data, []] := by decide

/-- The four port-mock variants of `core.serial_emulator`, reduced to the
open/connected flags consulted by the emulator (`SerialPortMock.is_open`,
`USBDisplayMock.is_connected`, `USBSerialDisplayMock.is_open`/`is_connected`,
`NetworkDisplayMock.connection.is_connected`). -/
inductive Port where
  | serialMock (is_open : Bool)
  | usbMock (is_connected : Bool)
  | usbSerialMock (is_open : Bool) (is_connected : Bool)
  | networkMock (is_connected : Bool)
deriving DecidableEq

/-- The emulator state touched by the port-lifecycle operations:
`self.ports`, `self.active_connections`, and the
`statistics['active_connections']` counter. -/
structure EmulatorState where
  ports : List (String × Port) := []
  active_connections : List (String × ConnectionType) := []
  active_count : Int := 0
deriving DecidableEq

/-- `SerialEmulator._should_simulate_failure`: a failure kind not listed in
`config.simulated_failures` is never simulated; otherwise a uniform draw
`random.random()` (passed here explicitly) is scaled by 100 and compared
with `config.error_rate`. -/
def should_simulate_failure (config : VirtualDisplayConfig) (failure_type : FailureType)
    (draw : ℚ) : Bool :=
  if failure_type ∈ config.simulated_failures then
    decide (draw * 100 < config.error_rate)
  else
    false

/-- The variant constructed by `SerialEmulator.create_virtual_port` for each
connection type, with the initial flags from the mock constructors (all
closed/disconnected); `bluetooth` raises "Unsupported connection type". -/
def newPortMock (connection_type : ConnectionType) : Option Port :=
  match connection_type with
  | ConnectionType.serial => some (Port.serialMock false)
  | ConnectionType.usb => some (Port.usbMock false)
  | ConnectionType.usb_serial => some (Port.usbSerialMock false false)
  | ConnectionType.network => some (Port.networkMock false)
  | ConnectionType.bluetooth => none

/-- `SerialEmulator.create_virtual_port`: raises if `config.port_name`
already exists, otherwise registers the new variant under
`config.port_name`. -/
def create_virtual_port (st : EmulatorState) (config : VirtualDisplayConfig) :
    Option EmulatorState :=
  if dictContains st.ports config.port_name then
    none
  else
    match newPortMock config.connection_type with
    | none => none
    | some port => some { st with ports := dictSet st.ports config.port_name port }

/-- The `isinstance` ladder inside `SerialEmulator.open_port`: it opens a
`SerialPortMock`, connects a `USBDisplayMock`, and connects a
`NetworkDisplayMock`, but has no branch for `USBSerialDisplayMock`, whose
flags are therefore left untouched (its `open()` method is never called). -/
def openPortVariant (port : Port) : Port :=
  match port with
  | Port.serialMock _ => Port.serialMock true
  | Port.usbMock _ => Port.usbMock true
  | Port.networkMock _ => Port.networkMock true
  | Port.usbSerialMock o c => Port.usbSerialMock o c

/-- `SerialEmulator.open_port`: auto-creates a missing port, rolls the
`disconnect` fault-injection draw, applies the `isinstance` ladder, records
the active connection type, and increments the active-connection counter.
`none` models a raised exception. -/
def open_port (st : EmulatorState) (port_name : String) (config : VirtualDisplayConfig)
    (draw : ℚ) : Option EmulatorState :=
  let created :=
    if dictContains st.ports port_name then some st
    else create_virtual_port st config
  match created with
  | none => none
  | some st1 =>
      match dictGet? st1.ports port_name with
      | none => none
      | some port =>
          if should_simulate_failure config FailureType.disconnect draw then none
          else
            some { st1 with
              ports := dictSet st1.ports port_name (openPortVariant port),
              active_connections :=
                dictSet st1.active_connections port_name config.connection_type,
              active_count := st1.active_count + 1 }

/-- The not-open/not-connected gate of `SerialEmulator.send_message`: the
flag each variant branch checks before transmitting. -/
def send_connection_check (port : Port) : Bool :=
  match port with
  | Port.serialMock is_open => is_open
  | Port.usbMock is_connected => is_connected
  | Port.usbSerialMock _ is_connected => is_connected
  | Port.networkMock is_connected => is_connected

/-- The `isinstance` ladder inside `SerialEmulator.close_port`: it closes a
`SerialPortMock`, disconnects a `USBDisplayMock` and a `NetworkDisplayMock`,
and — like `open_port` — has no branch for `USBSerialDisplayMock`. -/
def closePortVariant (port : Port) : Port :=
  match port with
  | Port.serialMock _ => Port.serialMock false
  | Port.usbMock _ => Port.usbMock false
  | Port.networkMock _ => Port.networkMock false
  | Port.usbSerialMock o c => Port.usbSerialMock o c

/-- `SerialEmulator.close_port`: returns unchanged for an unknown port,
otherwise applies the close ladder, conditionally removes the port from
`active_connections` and decrements the counter, and emits `port-closed`
(the returned Bool). The whole body is wrapped in `try/except`, so the
operation is total. -/
def close_port (st : EmulatorState) (port_name : String) : EmulatorState × Bool :=
  match dictGet? st.ports port_name with
  | none => (st, false)
  | some port =>
      let ports1 := dictSet st.ports port_name (closePortVariant port)
      let inActive := dictContains st.active_connections port_name
      let active1 :=
        if inActive then dictErase st.active_connections port_name
        else st.active_connections
      let count1 := if inActive then st.active_count - 1 else st.active_count
      ({ ports := ports1, active_connections := active1, active_count := count1 }, true)

/-- The fault-injection stage of `SerialEmulator.send_message`: a `timeout`
draw aborts with status timeout, then a `corruption` draw aborts with status
corrupted. -/
def send_fault_injection (config : VirtualDisplayConfig) (drawT drawC : ℚ) :
    Option CommunicationStatus :=
  if should_simulate_failure config FailureType.timeout drawT then
    some CommunicationStatus.timeout
  else if should_simulate_failure config FailureType.corruption drawC then
    some CommunicationStatus.corrupted
  else
    none

/-- The USB-serial preset used by the emulator for a bridge display
(`DEFAULT_USB_SERIAL_CONFIG`: port `USBSERIAL1`). -/
def usbSerialConfig : VirtualDisplayConfig :=
  { port_name := "USBSERIAL1", connection_type := ConnectionType.usb_serial }

/-- C3 (failing input): for the USB-serial variant, a successful
`open_port` leaves the port's `is_open`/`is_connected` flags false — the
`isinstance` ladder has no `USBSerialDisplayMock` branch and never calls its
`open()` — so the not-connected gate of an immediately following
`send_message` fails, contradicting the claim that every variant's flag is
flipped to true. -/
theorem C3_usb_serial_not_connected_after_open :
    (open_port {} "USBSERIAL1" usbSerialConfig 1).map
        (fun st => (dictGet? st.ports "USBSERIAL1").map send_connection_check)
      = some (some false) := by decide

theorem openPortVariant_flags :
    send_connection_check (openPortVariant (Port.serialMock false)) = true ∧
    send_connection_check (openPortVariant (Port.usbMock false)) = true ∧
    send_connection_check (openPortVariant (Port.networkMock false)) = true ∧
    send_connection_check (openPortVariant (Port.usbSerialMock false false)) = false := by
  decide

/-- A state with a known USB-serial port that is connected but absent from
the active-connection map. -/
def c8_state : EmulatorState :=
  { ports := [("P", Port.usbSerialMock true true)],
    active_connections := [],
    active_count := 0 }

/-- C8 counterexample: for a known port, `close_port` neither disconnects a
`USBSerialDisplayMock` (the close ladder has no branch for it) nor
decrements the active-connection counter when the port is not in the
active-connection map — the counter stays 0 instead of being decremented
and the flags stay true. -/
theorem C8_counterexample :
    (close_port c8_state "P").1.active_count = 0 ∧
    dictGet? (close_port c8_state "P").1.ports "P"
      = some (Port.usbSerialMock true true) := by decide

/-- C8 (amended): `close_port` is total (the body is wrapped in
`try/except`); an unknown port leaves the state unchanged and emits
nothing; for a known port it applies the close ladder (which leaves a
USB-serial variant untouched), after which the port is not in the
active-connection map, the counter is decremented exactly when the port was
in that map, and `port-closed` is emitted. -/
theorem C8_close_port_characterization (st : EmulatorState) (port_name : String) :
    (dictGet? st.ports port_name = none → close_port st port_name = (st, false)) ∧
    (∀ port, dictGet? st.ports port_name = some port →
      (close_port st port_name).2 = true ∧
      dictGet? (close_port st port_name).1.ports port_name
        = some (closePortVariant port) ∧
      dictContains (close_port st port_name).1.active_connections port_name = false ∧
      (close_port st port_name).1.active_count =
        (if dictContains st.active_connections port_name then st.active_count - 1
         else st.active_count)) := by
  constructor
  · intro h
    simp [close_port, h]
  · intro port h
    have e : close_port st port_name =
        ({ ports := dictSet st.ports port_name (closePortVariant port),
           active_connections :=
             if dictContains st.active_connections port_name then
               dictErase st.active_connections port_name
             else st.active_connections,
           active_count :=
             if dictContains st.active_connections port_name then st.active_count - 1
             else st.active_count }, true) := by
      simp only [close_port, h]
    rw [e]
    refine ⟨rfl, dictGet_set_self _ _ _, ?_, rfl⟩
    by_cases hin : dictContains st.active_connections port_name = true
    · simp only [hin, if_true]
      simp [dictContains, dictGet_erase_self]
    · simp only [Bool.not_eq_true] at hin
      simp only [hin, Bool.false_eq_true, if_false]

/-- A state with an open serial port registered in the active-connection
map. -/
def c8_witness_state : EmulatorState :=
  { ports := [("COM1", Port.serialMock true)],
    active_connections := [("COM1", ConnectionType.serial)],
    active_count := 1 }

/-- Witness for C8 at a concrete input: closing an open serial port closes
its variant, empties the active map, decrements the counter to 0, and
emits `port-closed`. -/
theorem C8_close_port_witness :
    (close_port c8_witness_state "COM1").2 = true ∧
    dictGet? (close_port c8_witness_state "COM1").1.ports "COM1"
      = some (Port.serialMock false) ∧
    (close_port c8_witness_state "COM1").1.active_count = 0 := by
  have h := (C8_close_port_characterization c8_witness_state "COM1").2
    (Port.serialMock true) (by decide)
  refine ⟨h.1, ?_, ?_⟩
  · rw [h.2.1]
    decide
  · rw [h.2.2.2]
    decide

/-- C10: a failure kind that is not listed in `config.simulated_failures`
is never simulated regardless of `error_rate` — the random draw is only
consulted for listed kinds — and with an empty `simulated_failures` list
neither `send_message`'s fault-injection stage nor `open_port`'s
`disconnect` check can fail, whatever the draws. -/
theorem C10_fault_injection_requires_listing (config : VirtualDisplayConfig)
    (failure_type : FailureType) (draw drawT drawC : ℚ) :
    (failure_type ∉ config.simulated_failures →
      should_simulate_failure config failure_type draw = false) ∧
    (config.simulated_failures = [] →
      send_fault_injection config drawT drawC = none ∧
      should_simulate_failure config FailureType.disconnect draw = false) := by
  constructor
  · intro h
    simp [should_simulate_failure, h]
  · intro h
    constructor
    · simp [send_fault_injection, should_simulate_failure, h]
    · simp [should_simulate_failure, h]

/-- Witness for C10: with `error_rate = 100` and no listed failure kinds,
no timeout is simulated and the send-path fault injection passes. -/
theorem C10_fault_injection_witness :
    should_simulate_failure { error_rate := 100 } FailureType.timeout 0 = false ∧
    send_fault_injection { error_rate := 100 } 0 0 = none := by
  have h := C10_fault_injection_requires_listing { error_rate := 100 }
    FailureType.timeout 0 0 0
  exact ⟨h.1 (by decide), (h.2 rfl).1⟩

/-- `models.test_scenario.ResultStatus`. -/
inductive ResultStatus where
  | pending
  | running
  | passed
  | failed
  | skipped
deriving DecidableEq

/-- The outcome dict returned by `TestRunner._execute_step`: its `success`
flag and, for failures, its `error_message` text. -/
structure StepExecResult where
  success : Bool
  error_message : Option String := none
deriving DecidableEq

/-- The fields of `models.test_scenario.TestResult` that the runner and the
report generator use; `duration` is a Python float, modelled as `ℚ`. -/
structure TestResult where
  status : ResultStatus := ResultStatus.pending
  step_results : List StepExecResult := []
  error_message : Option String := none
  duration : Option ℚ := none
deriving DecidableEq

/-- The expression `step_result.success` evaluated by the step loop of
`TestRunner.run_scenario`: `_execute_step` returns a plain builtin `dict`
(`TestResult.step_results` is typed `List[Dict[str, Any]]`), and a builtin
dict does not expose its keys as attributes, so this attribute read raises
`AttributeError` with this message instead of returning the stored flag. -/
def step_result_attr_error : String :=
  "\'dict\' object has no attribute \'success\'"

/-- The step loop of `TestRunner.run_scenario` as written, with each step's
`_execute_step` outcome dict supplied as data: a scenario with no steps
never enters the loop, stays running, and is marked `passed`; otherwise the
first outcome dict is appended and the loop then reads
`step_result.success` by attribute access, which raises `AttributeError`
(see `step_result_attr_error`); the surrounding `except Exception` turns
that into status `failed` with `str(e)` as the error message, so no further
step executes (the `.error_message` attribute read on the break path is
never reached). -/
def run_scenario_loop : List StepExecResult → TestResult
  | [] => { status := ResultStatus.passed }
  | r :: _ =>
      { status := ResultStatus.failed, step_results := [r],
        error_message := some step_result_attr_error }

theorem run_scenario_loop_nonempty (r : StepExecResult)
    (rest : List StepExecResult) :
    run_scenario_loop (r :: rest) =
      { status := ResultStatus.failed, step_results := [r],
        error_message := some step_result_attr_error } := rfl

/-- C5 (failing input): on a three-step scenario whose second step would
fail with "boom", the runner records exactly one step outcome and marks the
scenario failed with the `AttributeError` text — not two outcomes with
"boom" as the claim states, because `step_result.success` is an attribute
read on the plain outcome dict and raises on the very first step
(an all-success scenario is marked failed the same way instead of passed).
-/
theorem C5_run_scenario_attribute_error :
    run_scenario_loop [{ success := true },
        { success := false, error_message := some "boom" },
        { success := true }] =
      { status := ResultStatus.failed,
        step_results := [{ success := true }],
        error_message := some "\'dict\' object has no attribute \'success\'" }
    := by rfl

/-- The `self.statistics` counters of `SerialEmulator.__init__` touched by
the send path; latencies are Python floats, modelled as `ℚ`. -/
structure Statistics where
  total_messages : Nat := 0
  successful_messages : Nat := 0
  failed_messages : Nat := 0
  average_latency : ℚ := 0
deriving DecidableEq

/-- `SerialEmulator._update_average_latency`: with `n` the (already
incremented) successful-message count, the first success stores the latency
directly, later ones apply `(prevAvg * (n - 1) + latency) / n`. -/
def update_average_latency (s : Statistics) (latency : ℚ) : Statistics :=
  if s.successful_messages = 1 then
    { s with average_latency := latency }
  else
    { s with average_latency :=
        (s.average_latency * ((s.successful_messages : ℚ) - 1) + latency)
          / (s.successful_messages : ℚ) }

/-- The statistics update performed by `SerialEmulator.send_message` on a
successful send: increment the total and successful counters, then update
the running average. -/
def send_success_stats (s : Statistics) (latency : ℚ) : Statistics :=
  update_average_latency
    { s with
      total_messages := s.total_messages + 1,
      successful_messages := s.successful_messages + 1 }
    latency

theorem send_success_stats_average (s : Statistics) (latency : ℚ) :
    (send_success_stats s latency).average_latency =
      if s.successful_messages = 0 then latency
      else (s.average_latency * (s.successful_messages : ℚ) + latency)
             / ((s.successful_messages : ℚ) + 1) := by
  unfold send_success_stats update_average_latency
  by_cases h0 : s.successful_messages = 0
  · simp [h0]
  · rw [if_neg (by omega : ¬(s.successful_messages + 1 = 1)), if_neg h0]
    push_cast
    ring_nf

theorem send_success_stats_count (s : Statistics) (latency : ℚ) :
    (send_success_stats s latency).successful_messages
      = s.successful_messages + 1 := by
  unfold send_success_stats update_average_latency
  split <;> rfl

theorem foldl_send_success_stats (L : List ℚ) (s : Statistics) :
    ((L.foldl send_success_stats s).successful_messages
        = s.successful_messages + L.length) ∧
    ((L.foldl send_success_stats s).average_latency =
      if s.successful_messages + L.length = 0 then s.average_latency
      else (s.average_latency * (s.successful_messages : ℚ) + L.sum)
             / ((s.successful_messages : ℚ) + (L.length : ℚ))) := by
  induction L generalizing s with
  | nil =>
      refine ⟨rfl, ?_⟩
      by_cases h : s.successful_messages = 0
      · simp [h]
      · have hne : ((s.successful_messages : ℚ)) ≠ 0 := Nat.cast_ne_zero.mpr h
        rw [if_neg (by omega)]
        simp only [List.sum_nil, List.length_nil, Nat.cast_zero, add_zero]
        field_simp
  | cons x L ih =>
      simp only [List.foldl_cons, List.length_cons, List.sum_cons]
      obtain ⟨ihc, iha⟩ := ih (send_success_stats s x)
      rw [send_success_stats_count] at ihc iha
      constructor
      · rw [ihc]
        omega
      · rw [iha, if_neg (by omega), if_neg (by omega)]
        rw [send_success_stats_average]
        have hd1 : ((s.successful_messages : ℚ) + 1) ≠ 0 := by positivity
        have hd2 : ((s.successful_messages : ℚ) + 1 + (L.length : ℚ)) ≠ 0 := by
          positivity
        have hd3 : ((s.successful_messages : ℚ) + ((L.length : ℚ) + 1)) ≠ 0 := by
          positivity
        by_cases h0 : s.successful_messages = 0
        · rw [if_pos h0, h0]
          push_cast
          ring_nf
        · rw [if_neg h0]
          have hn : ((s.successful_messages : ℚ)) ≠ 0 := Nat.cast_ne_zero.mpr h0
          push_cast
          field_simp
          ring

/-- C6: starting from the zeroed statistics block, folding the
successful-send update over latencies `L1..Ln` leaves the reported average
latency equal to the arithmetic mean `(L1 + ... + Ln) / n`. -/
theorem C6_average_latency_is_mean (L : List ℚ) (h : L ≠ []) :
    (L.foldl send_success_stats {}).average_latency = L.sum / (L.length : ℚ) := by
  obtain ⟨-, ha⟩ := foldl_send_success_stats L {}
  rw [ha]
  have hlen : L.length ≠ 0 := by
    simpa [List.length_eq_zero] using h
  rw [if_neg (by simpa using hlen)]
  show ((0 : ℚ) * ((0 : Nat) : ℚ) + L.sum) / (((0 : Nat) : ℚ) + (L.length : ℚ))
      = L.sum / (L.length : ℚ)
  simp

/-- Witness for C6: two successful sends with latencies 10 ms and 20 ms
give an average of 15 ms. -/
theorem C6_average_latency_witness :
    (([10, 20] : List ℚ).foldl send_success_stats {}).average_latency = 15 := by
  rw [C6_average_latency_is_mean [10, 20] (by simp)]
  norm_num

/-- The summary block built by `TestRunner.generate_report`. -/
structure ReportSummary where
  total_tests : Nat
  passed_tests : Nat
  failed_tests : Nat
  success_rate : ℚ
  total_duration : ℚ
deriving DecidableEq

/-- `TestRunner.generate_report`: with no accumulated results it returns the
error dict `{"error": "No test results available"}` (modelled as
`Except.error`); otherwise it counts passed/failed results, sums durations
(`r.duration or 0`), and computes `success_rate` as
`passed / total * 100` (the `else 0` branch of that expression is
unreachable behind the emptiness guard). -/
def generate_report (results : List TestResult) : Except String ReportSummary :=
  if results.isEmpty then
    Except.error "No test results available"
  else
    let total_tests := results.length
    let passed_tests :=
      (results.filter (fun r => r.status == ResultStatus.passed)).length
    let failed_tests :=
      (results.filter (fun r => r.status == ResultStatus.failed)).length
    let total_duration := (results.map (fun r => r.duration.getD 0)).sum
    Except.ok
      { total_tests := total_tests,
        passed_tests := passed_tests,
        failed_tests := failed_tests,
        success_rate :=
          if total_tests > 0 then ((passed_tests : ℚ) / (total_tests : ℚ)) * 100
          else 0,
        total_duration := total_duration }

/-- C7 counterexample: with no accumulated test results, `generate_report`
returns the error object `{"error": "No test results available"}` and no
summary at all — not a summary whose `success_rate` is 0. -/
theorem C7_generate_report_empty_counterexample :
    generate_report [] = Except.error "No test results available" := by rfl

/-- C7 (amended): for a nonempty batch of results, `generate_report`
produces a summary whose `success_rate` is `passed / total * 100`; for an
empty batch it returns an error object instead of a summary. -/
theorem C7_success_rate (results : List TestResult) (h : results ≠ []) :
    (generate_report results).toOption.map ReportSummary.success_rate
      = some ((((results.filter
            (fun r => r.status == ResultStatus.passed)).length : ℚ)
          / (results.length : ℚ)) * 100) := by
  have hpos : 0 < results.length := by simpa [List.length_pos] using h
  unfold generate_report
  rw [if_neg (by simpa [List.isEmpty_iff] using h)]
  simp [Except.toOption, hpos]

/-- A batch of five scenario results, three passed and two failed. -/
def c7_demo_results : List TestResult :=
  [{ status := ResultStatus.passed }, { status := ResultStatus.passed },
   { status := ResultStatus.failed }, { status := ResultStatus.passed },
   { status := ResultStatus.failed }]

/-- Witness for C7: five results with three passed and two failed give a
success rate of exactly 60. -/
theorem C7_success_rate_witness :
    (generate_report c7_demo_results).toOption.map ReportSummary.success_rate
      = some 60 := by
  rw [C7_success_rate c7_demo_results (by decide)]
  have h3 : (c7_demo_results.filter
      (fun r => r.status == ResultStatus.passed)).length = 3 := by decide
  rw [h3, show c7_demo_results.length = 5 from rfl]
  norm_num

/-- The `logging` handler kinds attached by `utils.logger.setup_logger`. -/
inductive LogHandler where
  | console
  | file (path : String)
deriving DecidableEq

/-- The `logging.Logger` attributes `setup_logger` reads or writes. -/
structure PyLogger where
  level : Nat
  handlers : List LogHandler
deriving DecidableEq

/-- `getattr(logging, level.upper())`: the numeric value of a logging level
name; `none` models the `AttributeError` for an unknown name. -/
def loggingLevelValue (level : PyStr) : Option Nat :=
  if pyUpper level = "DEBUG".data then some 10
  else if pyUpper level = "INFO".data then some 20
  else if pyUpper level = "WARNING".data then some 30
  else if pyUpper level = "WARN".data then some 30
  else if pyUpper level = "ERROR".data then some 40
  else if pyUpper level = "CRITICAL".data then some 50
  else if pyUpper level = "FATAL".data then some 50
  else if pyUpper level = "NOTSET".data then some 0
  else none

/-- `logging.getLogger(name)`: per-name singleton lookup; a fresh logger
has level `NOTSET` (0) and no handlers. -/
def getLogger (registry : List (String × PyLogger)) (name : String) : PyLogger :=
  (dictGet? registry name).getD { level := 0, handlers := [] }

/-- `utils.logger.setup_logger`: fetch the per-name singleton, set its
level from the `level` argument, and return it as-is if it already has
handlers; otherwise attach a console handler and, when a file path is
given, a file handler.  The result pairs the returned logger with the
updated registry; `none` models the `AttributeError` raised for an invalid
level name. -/
def setup_logger (registry : List (String × PyLogger)) (name : String)
    (level : PyStr) (log_file : Option String) :
    Option (PyLogger × List (String × PyLogger)) :=
  match loggingLevelValue level with
  | none => none
  | some lv =>
      let logger : PyLogger := { getLogger registry name with level := lv }
      if logger.handlers.isEmpty then
        let handlers :=
          [LogHandler.console] ++
            (match log_file with
             | some path => [LogHandler.file path]
             | none => [])
        let logger2 : PyLogger := { logger with handlers := handlers }
        some (logger2, dictSet registry name logger2)
      else
        some (logger, dictSet registry name logger)

/-- C9 counterexample: after `setup_logger("test", "INFO")`, a second call
`setup_logger("test", "DEBUG")` returns the same registered logger with its
handler list unchanged, but its `level` attribute has been changed from 20
(INFO) to 10 (DEBUG) by the unconditional `setLevel` that runs before the
handlers early-return — so the repeated call does modify an existing
attribute. -/
theorem C9_counterexample :
    ((setup_logger [] "test" ("INFO".data) none).bind
        (fun p => (setup_logger p.2 "test" ("DEBUG".data) none).map
          (fun q => (p.1.level, q.1.level, q.1.handlers == p.1.handlers))))
      = some (20, 10, true) := by decide

/-- C9 (amended): a repeated `setup_logger` call for a name whose logger
already has handlers returns that same registered logger with its handler
list unchanged — no handlers are added or duplicated — but it first applies
`setLevel`, so the logger's level becomes the (valid) level argument; the
level is the only attribute that may change. -/
theorem C9_setup_logger_no_handler_duplication
    (registry : List (String × PyLogger)) (name : String) (level : PyStr)
    (log_file : Option String) (l0 : PyLogger) (lv : Nat)
    (hreg : dictGet? registry name = some l0)
    (hhandlers : l0.handlers ≠ [])
    (hlevel : loggingLevelValue level = some lv) :
    setup_logger registry name level log_file =
      some ({ l0 with level := lv },
        dictSet registry name { l0 with level := lv }) := by
  unfold setup_logger getLogger
  rw [hlevel, hreg]
  simp only [Option.getD_some]
  rw [if_neg (by simpa [List.isEmpty_iff] using hhandlers)]

/-- A registry holding one already-configured logger. -/
def c9_registry : List (String × PyLogger) :=
  [("test_runner", { level := 20, handlers := [LogHandler.console] })]

/-- Witness for C9 at a concrete input: re-running setup with level DEBUG
returns the registered logger with the same single console handler and
level 10. -/
theorem C9_setup_logger_witness :
    setup_logger c9_registry "test_runner" ("DEBUG".data) none
      = some ({ level := 10, handlers := [LogHandler.console] },
          dictSet c9_registry "test_runner"
            { level := 10, handlers := [LogHandler.console] }) :=
  C9_setup_logger_no_handler_duplication c9_registry "test_runner"
    ("DEBUG".data) none { level := 20, handlers := [LogHandler.console] } 10
    (by decide) (by decide) (by decide)

/-- `models.test_scenario.ScenarioCategory`. -/
inductive ScenarioCategory where
  | basic
  | functional
  | performance
  | stress
  | error_handling
  | integration
  | hardware
deriving DecidableEq

/-- The `.value` string of a `ScenarioCategory` member. -/
def categoryValue : ScenarioCategory → String
  | ScenarioCategory.basic => "basic"
  | ScenarioCategory.functional => "functional"
  | ScenarioCategory.performance => "performance"
  | ScenarioCategory.stress => "stress"
  | ScenarioCategory.error_handling => "error_handling"
  | ScenarioCategory.integration => "integration"
  | ScenarioCategory.hardware => "hardware"

/-- `ScenarioCategory(category_str)` with the `except ValueError` fallback
to `BASIC` used in `ScenarioLoader._parse_scenario_data`. -/
def parseCategory (s : String) : ScenarioCategory :=
  if s = "basic" then ScenarioCategory.basic
  else if s = "functional" then ScenarioCategory.functional
  else if s = "performance" then ScenarioCategory.performance
  else if s = "stress" then ScenarioCategory.stress
  else if s = "error_handling" then ScenarioCategory.error_handling
  else if s = "integration" then ScenarioCategory.integration
  else if s = "hardware" then ScenarioCategory.hardware
  else ScenarioCategory.basic

/-- Untyped Python values carried in a step's `parameters` and
`expected_result`; serialization passes them through unchanged. -/
inductive PyValue where
  | pyBool (b : Bool)
  | pyInt (n : Int)
  | pyStr (s : String)
  | pyList (xs : List PyValue)
  | pyDict (kvs : List (String × PyValue))

/-- The fields of `models.test_scenario.TestStep` that the loader
serializes. -/
structure TestStep where
  name : String
  action : String
  data : Option String := none
  expected_result : Option PyValue := none
  parameters : List (String × PyValue) := []
  delay_after : Int := 0

/-- `models.test_scenario.TestScenario`; `expected_duration` is a Python
float, modelled as `ℚ`. -/
structure TestScenario where
  id : String
  name : String
  description : String
  category : ScenarioCategory := ScenarioCategory.basic
  tags : List String := []
  steps : List TestStep := []
  expected_duration : ℚ := 10
  priority : String := "medium"
  enabled : Bool := true

/-- The per-step mapping written by `ScenarioLoader._scenario_to_dict`. -/
structure StepDict where
  name : String
  action : String
  data : Option String
  expected_result : Option PyValue
  parameters : List (String × PyValue)
  delay_after : Int

/-- The per-scenario mapping written by `ScenarioLoader._scenario_to_dict`
(category serialized as its `.value` string). -/
structure ScenarioDict where
  id : String
  name : String
  description : String
  category : String
  tags : List String
  steps : List StepDict
  expected_duration : ℚ
  priority : String
  enabled : Bool

/-- `ScenarioLoader._scenario_to_dict`. -/
def scenario_to_dict (s : TestScenario) : ScenarioDict :=
  { id := s.id,
    name := s.name,
    description := s.description,
    category := categoryValue s.category,
    tags := s.tags,
    steps := s.steps.map (fun st =>
      { name := st.name, action := st.action, data := st.data,
        expected_result := st.expected_result, parameters := st.parameters,
        delay_after := st.delay_after }),
    expected_duration := s.expected_duration,
    priority := s.priority,
    enabled := s.enabled }

/-- `ScenarioLoader._parse_scenario_data`. -/
def parse_scenario_data (d : ScenarioDict) : TestScenario :=
  { id := d.id,
    name := d.name,
    description := d.description,
    category := parseCategory d.category,
    tags := d.tags,
    steps := d.steps.map (fun sd =>
      { name := sd.name, action := sd.action, data := sd.data,
        expected_result := sd.expected_result, parameters := sd.parameters,
        delay_after := sd.delay_after }),
    expected_duration := d.expected_duration,
    priority := d.priority,
    enabled := d.enabled }

/-- The YAML document `{'scenarios': [...]}` exchanged with PyYAML. -/
structure YamlDoc where
  scenarios : List ScenarioDict

/-- Third-party boundary (PyYAML): the keyword parameters accepted by
`yaml.dump` / `yaml.dump_all` per its documented signature.  The
`json.dump`-only keyword `ensure_ascii` is not among them. -/
def yamlDumpParams : List String :=
  ["stream", "Dumper", "default_style", "default_flow_style", "canonical",
   "indent", "width", "allow_unicode", "line_break", "encoding",
   "explicit_start", "explicit_end", "version", "tags", "sort_keys"]

/-- Third-party boundary (PyYAML): `yaml.dump` serializes the document
faithfully when every supplied keyword names a documented parameter, and
raises `TypeError` for an unexpected keyword argument. -/
def yaml_dump (doc : YamlDoc) (kwargs : List String) : Except String YamlDoc :=
  if kwargs.all (fun k => yamlDumpParams.contains k) then Except.ok doc
  else Except.error "unexpected keyword argument"

/-- `ScenarioLoader.save_to_yaml`: builds `{'scenarios': [...]}` and calls
`yaml.dump(data, f, default_flow_style=False, ensure_ascii=False,
indent=2)`.  Any exception is caught and only logged, so when `yaml.dump`
raises, no document is written (`none`). -/
def save_to_yaml (scenarios : List TestScenario) : Option YamlDoc :=
  match yaml_dump { scenarios := scenarios.map scenario_to_dict }
      ["default_flow_style", "ensure_ascii", "indent"] with
  | Except.ok doc => some doc
  | Except.error _ => none

/-- `ScenarioLoader.load_from_yaml`: `yaml.safe_load` the file and parse
every entry under `scenarios`.  On any exception — including the
`AttributeError` from `data.get` when the file holds no document — the
loader logs and returns `[]`. -/
def load_from_yaml (doc : Option YamlDoc) : List TestScenario :=
  match doc with
  | none => []
  | some d => d.scenarios.map parse_scenario_data

/-- `automation.scenario_loader.create_default_scenarios`: the four
built-in default scenarios. -/
def create_default_scenarios : List TestScenario :=
  [{ id := "basic_display_test",
     name := "Test d\'Affichage de Base",
     description := "Test simple d\'affichage de texte",
     category := ScenarioCategory.basic,
     tags := ["basic", "display"],
     steps :=
       [{ name := "Effacer l\'afficheur", action := "clear",
          expected_result := some (PyValue.pyDict [("is_empty", PyValue.pyBool true)]) },
        { name := "Afficher message simple", action := "send",
          data := some "Hello World",
          expected_result := some (PyValue.pyDict
            [("content_match", PyValue.pyStr "Hello World")]) },
        { name := "Attendre 2 secondes", action := "wait",
          parameters := [("duration", PyValue.pyInt 2000)],
          delay_after := 2000 }],
     expected_duration := 5,
     priority := "high",
     enabled := true },
   { id := "multiline_display_test",
     name := "Test d\'Affichage Multi-lignes",
     description := "Test d\'affichage sur plusieurs lignes",
     category := ScenarioCategory.functional,
     tags := ["multiline", "display"],
     steps :=
       [{ name := "Effacer l\'afficheur", action := "clear",
          expected_result := some (PyValue.pyDict [("is_empty", PyValue.pyBool true)]) },
        { name := "Afficher ligne 1", action := "send",
          data := some "Ligne 1",
          expected_result := some (PyValue.pyDict
            [("content_match", PyValue.pyList [PyValue.pyStr "Ligne 1"])]) },
        { name := "Afficher ligne 2", action := "send",
          data := some "Ligne 2",
          expected_result := some (PyValue.pyDict
            [("content_match", PyValue.pyList
              [PyValue.pyStr "Ligne 1", PyValue.pyStr "Ligne 2"])]) }],
     expected_duration := 3,
     priority := "medium",
     enabled := true },
   { id := "performance_test",
     name := "Test de Performance",
     description := "Test de performance et latence",
     category := ScenarioCategory.performance,
     tags := ["performance", "latency"],
     steps :=
       [{ name := "Envoi rapide de messages", action := "send",
          data := some "Performance Test",
          parameters := [("repeat", PyValue.pyInt 10), ("interval", PyValue.pyInt 100)],
          expected_result := some (PyValue.pyDict
            [("response_time", PyValue.pyInt 50)]) }],
     expected_duration := 5,
     priority := "medium",
     enabled := true },
   { id := "usb_display_test",
     name := "Test d\'Afficheur USB",
     description := "Test spécifique pour afficheur USB",
     category := ScenarioCategory.hardware,
     tags := ["usb", "hardware"],
     steps :=
       [{ name := "Vérifier connexion USB", action := "validate",
          expected_result := some (PyValue.pyDict
            [("status", PyValue.pyStr "active")]) },
        { name := "Test message USB", action := "send",
          data := some "USB Display OK",
          expected_result := some (PyValue.pyDict
            [("content_match", PyValue.pyStr "USB Display OK")]) }],
     expected_duration := 3,
     priority := "high",
     enabled := true }]

/-- C4 (failing input): saving the four built-in default scenarios with
`save_to_yaml` and reloading yields no scenarios at all: `save_to_yaml`
passes the `json.dump` keyword `ensure_ascii` to `yaml.dump`, which raises
`TypeError`; the exception is swallowed, the file is left without a YAML
document, and reloading it returns the empty list instead of the four
scenarios. -/
theorem C4_yaml_roundtrip_loses_scenarios :
    load_from_yaml (save_to_yaml create_default_scenarios) = [] := by rfl

/-- The per-step fields whose preservation the round-trip property
requires: action and data. -/
def stepRoundTripOk (a b : TestStep) : Bool :=
  a.action == b.action && a.data == b.data

/-- The per-scenario fields whose preservation the round-trip property
requires: id, name, category, tag set, step count, per-step action/data. -/
def scenarioRoundTripOk (a b : TestScenario) : Bool :=
  a.id == b.id && a.name == b.name && decide (a.category = b.category) &&
    a.tags == b.tags && a.steps.length == b.steps.length &&
    (a.steps.zip b.steps).all (fun p => stepRoundTripOk p.1 p.2)

/-- The dict-level serialization round trip does preserve id, name,
category, tags, step count, and per-step action/data for the four default
scenarios — the YAML round trip would hold but for the `ensure_ascii`
keyword slip in `save_to_yaml`. -/
theorem default_scenarios_dict_roundtrip :
    ((create_default_scenarios.map
        (fun s => parse_scenario_data (scenario_to_dict s))).zip
      create_default_scenarios).all
        (fun p => scenarioRoundTripOk p.1 p.2) = true := by decide
